import Mathlib

/-!
Shallow embedding of the web-research pipeline: the orchestrator
(`WebResearchAgent.research`), the scraper (`WebScraper.scrape`), the search
tool (`SerpApiSearchTool.search`) and the summarizer (`GeminiSummarizer`).
Network collaborators (HTTP responses, the generation provider) are modelled
as explicit outcome values handed to the control flow, which is translated
from the source.  Python strings are sequences of code points, so string
slicing, lowercasing and suffix tests are modelled on `String.data`
(`List Char`).
-/

/-- Python slice `s[:n]`: the first `n` code points of `s`. -/
def pyTake (s : String) (n : Nat) : String :=
  String.mk (s.data.take n)

/-- Python `s.lower()`, modelled code-point-wise. -/
def pyLower (s : String) : String :=
  String.mk (s.data.map Char.toLower)

/-- Python `needle in haystack` for strings: substring containment. -/
def containsSub (needle : List Char) : List Char → Bool
  | [] => needle.isEmpty
  | c :: rest => needle.isPrefixOf (c :: rest) || containsSub needle rest

/-- One processed search hit as produced by `SerpApiSearchTool.get_top_results`:
title, link and snippet (missing provider fields already defaulted). -/
structure SearchHit where
  title : String
  link : String
  snippet : String
deriving Repr, DecidableEq

/-- The `{title, link, summary}` dict appended to `successful_summaries` for a
successfully summarized item (the synthesis input). -/
structure SourceSummary where
  title : String
  link : String
  summary : String
deriving Repr, DecidableEq

/-- The per-hit `result_data` dict built by `WebResearchAgent.research`.
Keys that Python only sets on some paths (`error`, `summary`, `content`)
are `Option`s; `none` means the key is absent. -/
structure ResultItem where
  title : String
  link : String
  snippet : String
  success : Bool
  error : Option String
  summary : Option String
  content : Option String
deriving Repr, DecidableEq

/-- The dict returned by `WebResearchAgent.research`.  The no-results return
has an `error` key and no `query` key; the normal return has `query` and no
`error`, hence both are `Option`s. -/
structure ResearchResult where
  success : Bool
  query : Option String
  error : Option String
  results : List ResultItem
  comprehensive_summary : Option String
deriving Repr, DecidableEq

/-! ### Scraper (`scraper-module.py`, class `WebScraper`) -/

/-- Outcome of one `requests.get` attempt inside `WebScraper.scrape`,
as discriminated by the `try/except` arms of the source: a timeout,
an `HTTPError` raised by `raise_for_status` (non-2xx status), a
`TooManyRedirects`, another `RequestException`, any other exception, or a
structurally successful response carrying its `Content-Type` header and body.
The string arguments of the error constructors are Python's `str(e)`. -/
inductive FetchOutcome where
  | timeout
  | httpError (msg : String)
  | tooManyRedirects
  | requestError (msg : String)
  | otherError (msg : String)
  | ok (contentType : String) (body : String)
deriving Repr, DecidableEq

/-- `skip_extensions` list from `WebScraper._should_skip_url`. -/
def skip_extensions : List String :=
  [".pdf", ".jpg", ".jpeg", ".png", ".gif", ".mp4", ".zip", ".doc", ".docx",
   ".ppt", ".pptx"]

/-- `WebScraper._should_skip_url`: does `url.lower()` end with one of the
skip extensions? -/
def should_skip_url (url : String) : Bool :=
  skip_extensions.any fun ext => ext.data.isSuffixOf (pyLower url).data

/-- The check `'text/html' in content_type` where
`content_type = response.headers.get('Content-Type', '').lower()`. -/
def htmlContentType (contentType : String) : Bool :=
  containsSub "text/html".data (pyLower contentType).data

/-- The `for attempt in range(max_retries)` loop of `WebScraper.scrape`.
`attempts` holds the outcome the network produces for each of the
`max_retries` attempts, in order, so `attempts.length = max_retries` and
`rest.isEmpty` means the current attempt is the last one
(`attempt == max_retries - 1`).  `extract` is `_extract_main_content`
applied to the parsed body (BeautifulSoup parsing and text cleanup,
abstracted as a function from the raw body to the cleaned text). -/
def scrapeLoop (extract : String → String) : List FetchOutcome → Bool × String
  | [] => (false, "Failed after multiple attempts.")
  | outcome :: rest =>
    match outcome with
    | .timeout =>
        -- retry (sleep then continue) unless this was the last attempt
        if rest.isEmpty then (false, "Request timed out.")
        else scrapeLoop extract rest
    | .httpError msg => (false, "HTTP error: " ++ msg)
    | .tooManyRedirects => (false, "Too many redirects.")
    | .requestError msg => (false, "Request error: " ++ msg)
    | .otherError msg => (false, "Error: " ++ msg)
    | .ok contentType body =>
        if !htmlContentType contentType then
          (false, "Not an HTML page. Content-Type: " ++ pyLower contentType)
        else
          let content := extract body
          -- `if not content or len(content) < 100`: empty content has length 0
          if content.length < 100 then (false, "Content too short or empty.")
          else if content.length > 15000 then (true, pyTake content 15000 ++ "...")
          else (true, content)

/-- `WebScraper.scrape`: URL validation (`_is_valid_url`, an oracle for
`urlparse`-based validation), the extension skip list, then the bounded
attempt loop (default `max_retries = 2`, i.e. `attempts.length = 2`). -/
def scrape (is_valid_url : String → Bool) (extract : String → String)
    (url : String) (attempts : List FetchOutcome) : Bool × String :=
  if !is_valid_url url then (false, "Invalid URL format.")
  else if should_skip_url url then
    (false, "Skipping URL that may contain non-HTML content: " ++ url)
  else scrapeLoop extract attempts

/-! ### Search tool (`search-tool-module.py`, class `SerpApiSearchTool`) -/

/-- Outcome of one `requests.get` attempt inside `SerpApiSearchTool.search`:
a 401 status (checked before `raise_for_status`), an `HTTPError` with the
raised status code, a parsed JSON body whose `organic_results` key is present
(`some results`) or absent (`none`), or any other exception (connection
errors, timeouts, JSON decoding failures, ...). -/
inductive SearchAttemptOutcome (α : Type) where
  | status401
  | httpError (status : Nat)
  | ok (organic : Option (List α))
  | exn (msg : String)
deriving Repr, DecidableEq

/-- The `for attempt in range(max_retries)` loop of `SerpApiSearchTool.search`
(default `max_retries = 3`).  `attempts` holds the outcome of each attempt in
order, so `rest.isEmpty` means `attempt == max_retries - 1`.  A 429 `HTTPError`
before the last attempt backs off and retries, any other `HTTPError` returns
`[]` at once; every other exception backs off and retries until the attempts
are exhausted. -/
def searchLoop {α : Type} : List (SearchAttemptOutcome α) → List α
  | [] => []
  | outcome :: rest =>
    match outcome with
    | .status401 => []
    | .ok (some results) => results
    | .ok none => []
    | .httpError status =>
        if status == 429 && !rest.isEmpty then searchLoop rest else []
    | .exn _ =>
        if !rest.isEmpty then searchLoop rest else []

/-! ### Summarizer (`summarizer-module.py`, class `GeminiSummarizer`) -/

/-- Outcome of the single `model.generate_content(prompt)` call (together with
everything else inside the `try`): an exception (network/auth/quota, with
`str(e)`), a response without a `text` attribute, or a response carrying
generated text. -/
inductive GenOutcome where
  | exn (msg : String)
  | noText
  | text (t : String)
deriving Repr, DecidableEq

/-- `GeminiSummarizer.summarize` given the provider-call outcome.
`if not summary or len(summary) < 50` is `summary.length < 50`, since the
empty string has length 0. -/
def summarize (response : GenOutcome) : Bool × String :=
  match response with
  | .exn msg => (false, "Failed to summarize: " ++ msg)
  | .noText => (false, "Error: Unexpected response format from API")
  | .text t =>
      if t.length < 50 then (false, "Generated summary was too short or empty")
      else (true, t)

/-- `GeminiSummarizer.create_comprehensive_summary` given the provider-call
outcome: same discrimination as `summarize` but no length check on the
returned text. -/
def create_comprehensive_summary (response : GenOutcome) : Bool × String :=
  match response with
  | .exn msg => (false, "Failed to create comprehensive summary: " ++ msg)
  | .noText => (false, "Error: Unexpected response format from API")
  | .text t => (true, t)

/-! ### Orchestrator (`agent-module.py`, class `WebResearchAgent`) -/

/-- The content preview stored on a successful item:
`content[:1000] + "..." if len(content) > 1000 else content`. -/
def contentPreview (content : String) : String :=
  if content.length > 1000 then pyTake content 1000 ++ "..." else content

/-- One iteration of the per-hit loop in `WebResearchAgent.research`: scrape
the link; on scrape failure record the error; otherwise summarize; on
summarize failure record the error; on success mark the item successful,
store summary and content preview, and produce the `{title, link, summary}`
entry appended to `successful_summaries`.  Returns the final `result_data`
together with that optional entry. -/
def processHit (scrape_fn : String → Bool × String)
    (summarize_fn : String → String → Bool → Bool × String)
    (query : String) (brief : Bool) (hit : SearchHit) :
    ResultItem × Option SourceSummary :=
  let scraped := scrape_fn hit.link
  if !scraped.1 then
    ({ title := hit.title, link := hit.link, snippet := hit.snippet,
       success := false, error := some scraped.2,
       summary := none, content := none }, none)
  else
    let summarized := summarize_fn scraped.2 query brief
    if !summarized.1 then
      ({ title := hit.title, link := hit.link, snippet := hit.snippet,
         success := false, error := some summarized.2,
         summary := none, content := none }, none)
    else
      ({ title := hit.title, link := hit.link, snippet := hit.snippet,
         success := true, error := none,
         summary := some summarized.2,
         content := some (contentPreview scraped.2) },
       some { title := hit.title, link := hit.link, summary := summarized.2 })

/-- The `successful_summaries` list accumulated by the per-hit loop, in hit
order. -/
def successfulSummaries (scrape_fn : String → Bool × String)
    (summarize_fn : String → String → Bool → Bool × String)
    (query : String) (brief : Bool) (hits : List SearchHit) :
    List SourceSummary :=
  (hits.map (processHit scrape_fn summarize_fn query brief)).filterMap Prod.snd

/-- `WebResearchAgent.research`.  The collaborators are the injected
components: `get_top_results` is `SerpApiSearchTool.get_top_results`,
`scrape_fn` is `WebScraper.scrape`, `summarize_fn` is
`GeminiSummarizer.summarize` (content, query, brief), `synthesize_fn` is
`GeminiSummarizer.create_comprehensive_summary` (summaries, query).  The
Python loop fills the items and `successful_summaries` in one pass; here the
two projections of the same per-hit computation are written separately. -/
def research (get_top_results : String → Nat → List SearchHit)
    (scrape_fn : String → Bool × String)
    (summarize_fn : String → String → Bool → Bool × String)
    (synthesize_fn : List SourceSummary → String → Bool × String)
    (query : String) (num_results : Nat) (brief_summaries : Bool) :
    ResearchResult :=
  let search_results := get_top_results query num_results
  if search_results.isEmpty then
    { success := false, query := none,
      error := some "No search results found",
      results := [], comprehensive_summary := none }
  else
    let items := search_results.map
      fun hit => (processHit scrape_fn summarize_fn query brief_summaries hit).1
    let successful_summaries :=
      successfulSummaries scrape_fn summarize_fn query brief_summaries search_results
    -- comprehensive_success stays False when successful_summaries is empty
    let comp :=
      if !successful_summaries.isEmpty then synthesize_fn successful_summaries query
      else (false, "")
    { success := !successful_summaries.isEmpty,
      query := some query, error := none,
      results := items,
      comprehensive_summary := if comp.1 then some comp.2 else none }

/-! ### Helper lemmas -/

theorem processHit_snd_eq_none_iff (scrape_fn : String → Bool × String)
    (summarize_fn : String → String → Bool → Bool × String)
    (query : String) (brief : Bool) (hit : SearchHit) :
    (processHit scrape_fn summarize_fn query brief hit).2 = none ↔
      (processHit scrape_fn summarize_fn query brief hit).1.success = false := by
  simp only [processHit]
  split
  · simp
  · split <;> simp

/-- C1: when the Result Fetcher returns zero hits, `research` returns
`success = false`, error `"No search results found"`, empty `results` and
null `comprehensive_summary`, and the result does not depend on the scraper,
summarizer or synthesizer collaborators (they are not invoked). -/
theorem research_no_hits
    (get_top_results : String → Nat → List SearchHit)
    (scrape_fn scrape_fn' : String → Bool × String)
    (summarize_fn summarize_fn' : String → String → Bool → Bool × String)
    (synthesize_fn synthesize_fn' : List SourceSummary → String → Bool × String)
    (query : String) (num_results : Nat) (brief : Bool)
    (h : get_top_results query num_results = []) :
    research get_top_results scrape_fn summarize_fn synthesize_fn
        query num_results brief =
      { success := false, query := none,
        error := some "No search results found",
        results := [], comprehensive_summary := none } ∧
    research get_top_results scrape_fn summarize_fn synthesize_fn
        query num_results brief =
      research get_top_results scrape_fn' summarize_fn' synthesize_fn'
        query num_results brief := by
  simp [research, h]

/-- Witness for C1 at a concrete fetcher returning no hits. -/
theorem research_no_hits_witness :
    research (fun _ _ => []) (fun _ => (true, "c")) (fun _ _ _ => (true, "s"))
        (fun _ _ => (true, "z")) "q" 5 false =
      { success := false, query := none,
        error := some "No search results found",
        results := [], comprehensive_summary := none } ∧
    research (fun _ _ => []) (fun _ => (true, "c")) (fun _ _ _ => (true, "s"))
        (fun _ _ => (true, "z")) "q" 5 false =
      research (fun _ _ => []) (fun _ => (false, "e")) (fun _ _ _ => (false, "f"))
        (fun _ _ => (false, "g")) "q" 5 false :=
  research_no_hits (fun _ _ => []) _ _ _ _ _ _ "q" 5 false rfl

theorem successfulSummaries_eq_nil_iff (scrape_fn : String → Bool × String)
    (summarize_fn : String → String → Bool → Bool × String)
    (query : String) (brief : Bool) (hits : List SearchHit) :
    successfulSummaries scrape_fn summarize_fn query brief hits = [] ↔
      ∀ hit ∈ hits,
        (processHit scrape_fn summarize_fn query brief hit).1.success = false := by
  simp [successfulSummaries, List.filterMap_eq_nil_iff, processHit_snd_eq_none_iff]

/-- C2: with at least one search hit, the returned `success` flag is true iff
some returned item has `success = true`, whatever the synthesizer does. -/
theorem research_success_iff_some_item
    (get_top_results : String → Nat → List SearchHit)
    (scrape_fn : String → Bool × String)
    (summarize_fn : String → String → Bool → Bool × String)
    (synthesize_fn : List SourceSummary → String → Bool × String)
    (query : String) (num_results : Nat) (brief : Bool)
    (h : get_top_results query num_results ≠ []) :
    ((research get_top_results scrape_fn summarize_fn synthesize_fn
        query num_results brief).success = true ↔
      ∃ r ∈ (research get_top_results scrape_fn summarize_fn synthesize_fn
        query num_results brief).results, r.success = true) := by
  have hie : (get_top_results query num_results).isEmpty = false := by
    simp [List.isEmpty_iff, h]
  simp only [research, hie, Bool.false_eq_true, if_false]
  by_cases hL : successfulSummaries scrape_fn summarize_fn query brief
      (get_top_results query num_results) = []
  · have hall := (successfulSummaries_eq_nil_iff scrape_fn summarize_fn query brief
      (get_top_results query num_results)).mp hL
    simp only [hL, List.isEmpty_nil, Bool.not_true, Bool.false_eq_true, false_iff,
      List.mem_map]
    rintro ⟨r, ⟨hit, hhit, rfl⟩, hsucc⟩
    have hfail := hall hit hhit
    rw [hfail] at hsucc
    exact Bool.false_ne_true hsucc
  · have hne : (successfulSummaries scrape_fn summarize_fn query brief
        (get_top_results query num_results)).isEmpty = false := by
      simp [List.isEmpty_iff, hL]
    simp only [hne, Bool.not_false, true_iff]
    have hx : ¬ ∀ hit ∈ get_top_results query num_results,
        (processHit scrape_fn summarize_fn query brief hit).1.success = false := by
      rw [← successfulSummaries_eq_nil_iff scrape_fn summarize_fn query brief]
      exact hL
    push_neg at hx
    obtain ⟨hit, hhit, hs⟩ := hx
    exact ⟨(processHit scrape_fn summarize_fn query brief hit).1,
      List.mem_map_of_mem _ hhit, by simpa using hs⟩

/-- Witness for C2 at a concrete fetcher with one hit whose scrape and
summarize succeed while synthesis fails. -/
theorem research_success_iff_some_item_witness :
    ((research (fun _ _ => [⟨"Test Result", "https://example.com", "Test snippet"⟩])
        (fun _ => (true, "content")) (fun _ _ _ => (true, "Test summary"))
        (fun _ _ => (false, "boom")) "test query" 1 false).success = true ↔
      ∃ r ∈ (research (fun _ _ => [⟨"Test Result", "https://example.com", "Test snippet"⟩])
        (fun _ => (true, "content")) (fun _ _ _ => (true, "Test summary"))
        (fun _ _ => (false, "boom")) "test query" 1 false).results,
          r.success = true) :=
  research_success_iff_some_item _ _ _ _ "test query" 1 false (by simp)

/-- C3: with at least one hit, `comprehensive_summary` is non-null iff the
collected synthesis input is non-empty and the synthesis call over it
succeeds; when synthesis fails the field is null and no error is surfaced. -/
theorem research_comprehensive_summary_iff
    (get_top_results : String → Nat → List SearchHit)
    (scrape_fn : String → Bool × String)
    (summarize_fn : String → String → Bool → Bool × String)
    (synthesize_fn : List SourceSummary → String → Bool × String)
    (query : String) (num_results : Nat) (brief : Bool)
    (h : get_top_results query num_results ≠ []) :
    ((research get_top_results scrape_fn summarize_fn synthesize_fn
        query num_results brief).comprehensive_summary ≠ none ↔
      (successfulSummaries scrape_fn summarize_fn query brief
          (get_top_results query num_results) ≠ [] ∧
        (synthesize_fn (successfulSummaries scrape_fn summarize_fn query brief
          (get_top_results query num_results)) query).1 = true)) ∧
    ((synthesize_fn (successfulSummaries scrape_fn summarize_fn query brief
        (get_top_results query num_results)) query).1 = false →
      (research get_top_results scrape_fn summarize_fn synthesize_fn
          query num_results brief).comprehensive_summary = none ∧
      (research get_top_results scrape_fn summarize_fn synthesize_fn
          query num_results brief).error = none) := by
  have hie : (get_top_results query num_results).isEmpty = false := by
    simp [List.isEmpty_iff, h]
  simp only [research, hie, Bool.false_eq_true, if_false]
  by_cases hL : successfulSummaries scrape_fn summarize_fn query brief
      (get_top_results query num_results) = []
  · simp [hL]
  · have hne : (successfulSummaries scrape_fn summarize_fn query brief
        (get_top_results query num_results)).isEmpty = false := by
      simp [List.isEmpty_iff, hL]
    cases hs : (synthesize_fn (successfulSummaries scrape_fn summarize_fn query brief
        (get_top_results query num_results)) query).1 <;>
      simp [hne, hL, hs]

/-- Witness for C3: one hit, successful scrape and summarize, failing
synthesis. -/
theorem research_comprehensive_summary_iff_witness :
    ((research (fun _ _ => [⟨"Test Result", "https://example.com", "Test snippet"⟩])
        (fun _ => (true, "content")) (fun _ _ _ => (true, "Test summary"))
        (fun _ _ => (false, "boom")) "test query" 1 false).comprehensive_summary ≠ none ↔
      (successfulSummaries (fun _ => (true, "content")) (fun _ _ _ => (true, "Test summary"))
          "test query" false [⟨"Test Result", "https://example.com", "Test snippet"⟩] ≠ [] ∧
        ((fun (_ : List SourceSummary) (_ : String) => ((false : Bool), "boom"))
          (successfulSummaries (fun _ => (true, "content"))
            (fun _ _ _ => (true, "Test summary"))
            "test query" false [⟨"Test Result", "https://example.com", "Test snippet"⟩])
          "test query").1 = true)) ∧
    (((fun (_ : List SourceSummary) (_ : String) => ((false : Bool), "boom"))
        (successfulSummaries (fun _ => (true, "content"))
          (fun _ _ _ => (true, "Test summary"))
          "test query" false [⟨"Test Result", "https://example.com", "Test snippet"⟩])
        "test query").1 = false →
      (research (fun _ _ => [⟨"Test Result", "https://example.com", "Test snippet"⟩])
          (fun _ => (true, "content")) (fun _ _ _ => (true, "Test summary"))
          (fun _ _ => (false, "boom")) "test query" 1 false).comprehensive_summary = none ∧
      (research (fun _ _ => [⟨"Test Result", "https://example.com", "Test snippet"⟩])
          (fun _ => (true, "content")) (fun _ _ _ => (true, "Test summary"))
          (fun _ _ => (false, "boom")) "test query" 1 false).error = none) :=
  research_comprehensive_summary_iff _ _ _ _ "test query" 1 false (by simp)

/-- C4: for the hit at rank `i`, an extraction failure yields an item carrying
the extractor's error with the summarizer never invoked (the per-item record
does not depend on the summarizer), and an extraction success followed by a
summarization failure yields an item carrying the summarizer's error and no
entry in the synthesis input. -/
theorem research_item_error_paths
    (get_top_results : String → Nat → List SearchHit)
    (scrape_fn : String → Bool × String)
    (summarize_fn summarize_fn' : String → String → Bool → Bool × String)
    (synthesize_fn : List SourceSummary → String → Bool × String)
    (query : String) (num_results : Nat) (brief : Bool)
    (i : Nat) (hit : SearchHit)
    (hhit : (get_top_results query num_results)[i]? = some hit) :
    ((scrape_fn hit.link).1 = false →
      (research get_top_results scrape_fn summarize_fn synthesize_fn
          query num_results brief).results[i]? = some
        { title := hit.title, link := hit.link, snippet := hit.snippet,
          success := false, error := some (scrape_fn hit.link).2,
          summary := none, content := none } ∧
      processHit scrape_fn summarize_fn' query brief hit =
        processHit scrape_fn summarize_fn query brief hit) ∧
    ((scrape_fn hit.link).1 = true →
      (summarize_fn (scrape_fn hit.link).2 query brief).1 = false →
      (research get_top_results scrape_fn summarize_fn synthesize_fn
          query num_results brief).results[i]? = some
        { title := hit.title, link := hit.link, snippet := hit.snippet,
          success := false,
          error := some (summarize_fn (scrape_fn hit.link).2 query brief).2,
          summary := none, content := none } ∧
      (processHit scrape_fn summarize_fn query brief hit).2 = none) := by
  have hne : get_top_results query num_results ≠ [] := by
    intro he
    rw [he] at hhit
    simp at hhit
  have hie : (get_top_results query num_results).isEmpty = false := by
    simp [List.isEmpty_iff, hne]
  constructor
  · intro hscrape
    constructor
    · simp only [research, hie, Bool.false_eq_true, if_false]
      simp [List.getElem?_map, hhit, processHit, hscrape]
    · simp [processHit, hscrape]
  · intro hscrape hsum
    constructor
    · simp only [research, hie, Bool.false_eq_true, if_false]
      simp [List.getElem?_map, hhit, processHit, hscrape, hsum]
    · simp [processHit, hscrape, hsum]

/-- Witness for C4: one hit whose scrape fails with a fixed error. -/
theorem research_item_error_paths_witness :
    (((fun (_ : String) => ((false : Bool), "Failed to scrape content"))
        "https://example.com").1 = false →
      (research (fun _ _ => [⟨"Test Result", "https://example.com", "Test snippet"⟩])
          (fun _ => (false, "Failed to scrape content"))
          (fun _ _ _ => (true, "sum")) (fun _ _ => (true, "z"))
          "test query" 1 false).results[0]? = some
        { title := "Test Result", link := "https://example.com",
          snippet := "Test snippet", success := false,
          error := some ((fun (_ : String) =>
            ((false : Bool), "Failed to scrape content")) "https://example.com").2,
          summary := none, content := none } ∧
      processHit (fun _ => (false, "Failed to scrape content"))
          (fun _ _ _ => (false, "other")) "test query" false
          ⟨"Test Result", "https://example.com", "Test snippet"⟩ =
        processHit (fun _ => (false, "Failed to scrape content"))
          (fun _ _ _ => (true, "sum")) "test query" false
          ⟨"Test Result", "https://example.com", "Test snippet"⟩) ∧
    (((fun (_ : String) => ((false : Bool), "Failed to scrape content"))
        "https://example.com").1 = true →
      ((fun (_ : String) (_ : String) (_ : Bool) => ((true : Bool), "sum"))
        ((fun (_ : String) => ((false : Bool), "Failed to scrape content"))
          "https://example.com").2 "test query" false).1 = false →
      (research (fun _ _ => [⟨"Test Result", "https://example.com", "Test snippet"⟩])
          (fun _ => (false, "Failed to scrape content"))
          (fun _ _ _ => (true, "sum")) (fun _ _ => (true, "z"))
          "test query" 1 false).results[0]? = some
        { title := "Test Result", link := "https://example.com",
          snippet := "Test snippet", success := false,
          error := some ((fun (_ : String) (_ : String) (_ : Bool) =>
            ((true : Bool), "sum"))
            ((fun (_ : String) => ((false : Bool), "Failed to scrape content"))
              "https://example.com").2 "test query" false).2,
          summary := none, content := none } ∧
      (processHit (fun _ => (false, "Failed to scrape content"))
          (fun _ _ _ => (true, "sum")) "test query" false
          ⟨"Test Result", "https://example.com", "Test snippet"⟩).2 = none) :=
  research_item_error_paths
    (fun _ _ => [⟨"Test Result", "https://example.com", "Test snippet"⟩])
    (fun _ => (false, "Failed to scrape content"))
    (fun _ _ _ => (true, "sum")) (fun _ _ _ => (false, "other"))
    (fun _ _ => (true, "z")) "test query" 1 false 0
    ⟨"Test Result", "https://example.com", "Test snippet"⟩ rfl

/-- C10: with at least one hit, the returned `results` has exactly one item
per hit in the original order (same length, the item at rank `i` carries the
fields of the hit at rank `i`); a successful item carries a summary and the
content preview and no error, a failed item carries an error and neither
summary nor content. -/
theorem research_results_shape
    (get_top_results : String → Nat → List SearchHit)
    (scrape_fn : String → Bool × String)
    (summarize_fn : String → String → Bool → Bool × String)
    (synthesize_fn : List SourceSummary → String → Bool × String)
    (query : String) (num_results : Nat) (brief : Bool)
    (h : get_top_results query num_results ≠ []) :
    (research get_top_results scrape_fn summarize_fn synthesize_fn
        query num_results brief).results.length =
      (get_top_results query num_results).length ∧
    ∀ (i : Nat) (hit : SearchHit),
      (get_top_results query num_results)[i]? = some hit →
      ∃ item,
        (research get_top_results scrape_fn summarize_fn synthesize_fn
            query num_results brief).results[i]? = some item ∧
        item.title = hit.title ∧ item.link = hit.link ∧
        item.snippet = hit.snippet ∧
        (item.success = true →
          item.error = none ∧ (∃ s, item.summary = some s) ∧
          item.content = some (contentPreview (scrape_fn hit.link).2)) ∧
        (item.success = false →
          (∃ e, item.error = some e) ∧ item.summary = none ∧
          item.content = none) := by
  have hie : (get_top_results query num_results).isEmpty = false := by
    simp [List.isEmpty_iff, h]
  simp only [research, hie, Bool.false_eq_true, if_false]
  constructor
  · simp
  · intro i hit hhit
    refine ⟨(processHit scrape_fn summarize_fn query brief hit).1,
      by simp [List.getElem?_map, hhit], ?_⟩
    simp only [processHit]
    split
    · simp
    · split <;> simp

/-- Witness for C10: one hit with successful scrape and summarize. -/
theorem research_results_shape_witness :
    (research (fun _ _ => [⟨"Test Result", "https://example.com", "Test snippet"⟩])
        (fun _ => (true, "content")) (fun _ _ _ => (true, "Test summary"))
        (fun _ _ => (true, "Comprehensive summary")) "test query" 1 false).results.length =
      ((fun (_ : String) (_ : Nat) =>
        [(⟨"Test Result", "https://example.com", "Test snippet"⟩ : SearchHit)])
        "test query" 1).length ∧
    ∀ (i : Nat) (hit : SearchHit),
      ((fun (_ : String) (_ : Nat) =>
        [(⟨"Test Result", "https://example.com", "Test snippet"⟩ : SearchHit)])
        "test query" 1)[i]? = some hit →
      ∃ item,
        (research (fun _ _ => [⟨"Test Result", "https://example.com", "Test snippet"⟩])
            (fun _ => (true, "content")) (fun _ _ _ => (true, "Test summary"))
            (fun _ _ => (true, "Comprehensive summary"))
            "test query" 1 false).results[i]? = some item ∧
        item.title = hit.title ∧ item.link = hit.link ∧
        item.snippet = hit.snippet ∧
        (item.success = true →
          item.error = none ∧ (∃ s, item.summary = some s) ∧
          item.content = some (contentPreview
            ((fun (_ : String) => ((true : Bool), "content")) hit.link).2)) ∧
        (item.success = false →
          (∃ e, item.error = some e) ∧ item.summary = none ∧
          item.content = none) :=
  research_results_shape
    (fun _ _ => [⟨"Test Result", "https://example.com", "Test snippet"⟩])
    (fun _ => (true, "content")) (fun _ _ _ => (true, "Test summary"))
    (fun _ _ => (true, "Comprehensive summary")) "test query" 1 false (by simp)

/-- C6: when an attempt structurally succeeds with an HTML content type, a
cleaned text shorter than 100 characters makes `scrape` fail with the
"too short" error, and a cleaned text longer than 15000 characters makes
`scrape` succeed with the text cut at 15000 characters plus the `"..."`
marker. -/
theorem scrape_content_rules
    (is_valid_url : String → Bool) (extract : String → String)
    (url ct body : String) (rest : List FetchOutcome)
    (hvalid : is_valid_url url = true) (hskip : should_skip_url url = false)
    (hhtml : htmlContentType ct = true) :
    ((extract body).length < 100 →
      scrape is_valid_url extract url (.ok ct body :: rest) =
        (false, "Content too short or empty.")) ∧
    ((extract body).length > 15000 →
      scrape is_valid_url extract url (.ok ct body :: rest) =
        (true, pyTake (extract body) 15000 ++ "...")) := by
  constructor
  · intro hlen
    simp [scrape, hvalid, hskip, scrapeLoop, hhtml, hlen]
  · intro hlen
    have h100 : ¬(extract body).length < 100 := by omega
    simp [scrape, hvalid, hskip, scrapeLoop, hhtml, h100, hlen]

/-- Witness for C6 at a concrete URL and empty cleaned text. -/
theorem scrape_content_rules_witness :
    (((fun (_ : String) => "") "b").length < 100 →
      scrape (fun _ => true) (fun _ => "") "https://example.com"
          [FetchOutcome.ok "text/html; charset=utf-8" "b"] =
        (false, "Content too short or empty.")) ∧
    (((fun (_ : String) => "") "b").length > 15000 →
      scrape (fun _ => true) (fun _ => "") "https://example.com"
          [FetchOutcome.ok "text/html; charset=utf-8" "b"] =
        (true, pyTake ((fun (_ : String) => "") "b") 15000 ++ "...")) :=
  scrape_content_rules (fun _ => true) (fun _ => "") "https://example.com"
    "text/html; charset=utf-8" "b" [] rfl (by decide) (by decide)

/-- C7: in the bounded attempt loop, a timeout before the last attempt
retries (the loop continues on the remaining attempts) and on the last
attempt fails with "Request timed out."; an HTTP status error, a
too-many-redirects condition or a non-HTML content type fails immediately
whatever attempts remain. -/
theorem scrapeLoop_retry_policy (extract : String → String) :
    (∀ rest, rest ≠ [] →
      scrapeLoop extract (.timeout :: rest) = scrapeLoop extract rest) ∧
    (scrapeLoop extract [.timeout] = (false, "Request timed out.")) ∧
    (scrapeLoop extract [.timeout, .timeout] = (false, "Request timed out.")) ∧
    (∀ msg rest, scrapeLoop extract (.httpError msg :: rest) =
      (false, "HTTP error: " ++ msg)) ∧
    (∀ rest, scrapeLoop extract (.tooManyRedirects :: rest) =
      (false, "Too many redirects.")) ∧
    (∀ ct body rest, htmlContentType ct = false →
      scrapeLoop extract (.ok ct body :: rest) =
        (false, "Not an HTML page. Content-Type: " ++ pyLower ct)) := by
  refine ⟨?_, by simp [scrapeLoop], by simp [scrapeLoop], ?_, ?_, ?_⟩
  · intro rest hne
    cases rest with
    | nil => exact absurd rfl hne
    | cons a t => simp [scrapeLoop]
  · intro msg rest
    simp [scrapeLoop]
  · intro rest
    simp [scrapeLoop]
  · intro ct body rest hhtml
    simp [scrapeLoop, hhtml]

/-- Witness for C7: a timeout on the first of two attempts retries into an
HTTP error on the second, which fails at once. -/
theorem scrapeLoop_retry_policy_witness :
    scrapeLoop (fun _ => "") [.timeout, .httpError "404 Client Error"] =
      (false, "HTTP error: " ++ "404 Client Error") ∧
    scrapeLoop (fun _ => "") [.timeout] = (false, "Request timed out.") ∧
    scrapeLoop (fun _ => "")
        [.ok "application/json" "b", .ok "text/html" "b"] =
      (false, "Not an HTML page. Content-Type: " ++ pyLower "application/json") := by
  refine ⟨?_, (scrapeLoop_retry_policy (fun _ => "")).2.1, ?_⟩
  · rw [(scrapeLoop_retry_policy (fun _ => "")).1 [.httpError "404 Client Error"]
      (by simp)]
    exact (scrapeLoop_retry_policy (fun _ => "")).2.2.2.1 "404 Client Error" []
  · exact (scrapeLoop_retry_policy (fun _ => "")).2.2.2.2.2 "application/json" "b"
      [.ok "text/html" "b"] (by decide)

/-- Counterexample to C5 as stated: a connection-level error on the first
attempt (a transport error that is neither a 401 nor a 429) is retried, and
the run returns the second attempt's results instead of the empty sequence. -/
theorem search_nonretry_counterexample :
    searchLoop [SearchAttemptOutcome.exn "Connection aborted.",
      SearchAttemptOutcome.ok (some [(1 : Nat)])] = [1] ∧
    searchLoop [SearchAttemptOutcome.exn "Connection aborted.",
      SearchAttemptOutcome.ok (some [(1 : Nat)])] ≠ [] := by
  constructor <;> simp [searchLoop]

/-- C5 amended: in the search attempt loop, a 401 yields an empty sequence at
once; an HTTP status error other than 429 yields an empty sequence at once
with no retry; a 429 HTTP error and any non-HTTP-status exception retry on
the remaining attempts, yielding an empty sequence only when the failing
attempt was the last one. -/
theorem search_retry_policy {α : Type} :
    (∀ (rest : List (SearchAttemptOutcome α)),
      searchLoop (.status401 :: rest) = []) ∧
    (∀ (status : Nat) (rest : List (SearchAttemptOutcome α)), status ≠ 429 →
      searchLoop (.httpError status :: rest) = []) ∧
    (∀ (status : Nat), searchLoop ([.httpError status] :
      List (SearchAttemptOutcome α)) = []) ∧
    (∀ (rest : List (SearchAttemptOutcome α)), rest ≠ [] →
      searchLoop (.httpError 429 :: rest) = searchLoop rest) ∧
    (∀ (msg : String) (rest : List (SearchAttemptOutcome α)), rest ≠ [] →
      searchLoop (.exn msg :: rest) = searchLoop rest) ∧
    (∀ (msg : String), searchLoop ([.exn msg] :
      List (SearchAttemptOutcome α)) = []) := by
  refine ⟨?_, ?_, ?_, ?_, ?_, ?_⟩
  · intro rest
    simp [searchLoop]
  · intro status rest hstatus
    have hbeq : (status == 429) = false := by simpa using hstatus
    simp [searchLoop, hbeq]
  · intro status
    cases hbeq : (status == 429) <;> simp [searchLoop, hbeq]
  · intro rest hne
    cases rest with
    | nil => exact absurd rfl hne
    | cons a t => simp [searchLoop]
  · intro msg rest hne
    cases rest with
    | nil => exact absurd rfl hne
    | cons a t => simp [searchLoop]
  · intro msg
    simp [searchLoop]

/-- Witness for C5 (amended): a 500 HTTP error is not retried even with an
attempt left, while a 429 then a success yields the second attempt's
results. -/
theorem search_retry_policy_witness :
    searchLoop [SearchAttemptOutcome.httpError 500,
      SearchAttemptOutcome.ok (some [(1 : Nat)])] = [] ∧
    searchLoop [SearchAttemptOutcome.httpError 429,
      SearchAttemptOutcome.ok (some [(2 : Nat)])] = [2] := by
  constructor
  · exact (search_retry_policy (α := Nat)).2.1 500
      [SearchAttemptOutcome.ok (some [1])] (by decide)
  · rw [(search_retry_policy (α := Nat)).2.2.2.1
      [SearchAttemptOutcome.ok (some [2])] (by simp)]
    simp [searchLoop]

/-- C8: `summarize` fails with a distinct error string when the provider
raises, when the response lacks retrievable text, and when the returned text
is shorter than 50 characters; `create_comprehensive_summary` fails on the
first two conditions but has no length floor, so any non-empty returned text
yields success. -/
theorem summarizer_failure_taxonomy :
    (∀ msg, summarize (.exn msg) = (false, "Failed to summarize: " ++ msg)) ∧
    (summarize .noText = (false, "Error: Unexpected response format from API")) ∧
    (∀ t, t.length < 50 →
      summarize (.text t) = (false, "Generated summary was too short or empty")) ∧
    (∀ msg,
      "Failed to summarize: " ++ msg ≠ "Error: Unexpected response format from API" ∧
      "Failed to summarize: " ++ msg ≠ "Generated summary was too short or empty") ∧
    ("Error: Unexpected response format from API" ≠
      "Generated summary was too short or empty") ∧
    (∀ msg, (create_comprehensive_summary (.exn msg)).1 = false) ∧
    ((create_comprehensive_summary .noText).1 = false) ∧
    (∀ t, t ≠ "" → create_comprehensive_summary (.text t) = (true, t)) := by
  refine ⟨fun msg => rfl, rfl, ?_, ?_, by decide, fun msg => rfl, rfl,
    fun t _ => rfl⟩
  · intro t hlen
    simp [summarize, hlen]
  · intro msg
    constructor <;>
      · intro heq
        have hh := congrArg (fun z => z.data.head?) heq
        simp at hh

/-- Witness for C8 at a concrete provider error, a short summary and a short
but non-empty synthesis text. -/
theorem summarizer_failure_taxonomy_witness :
    summarize (.exn "quota exceeded") =
      (false, "Failed to summarize: " ++ "quota exceeded") ∧
    summarize (.text "short") =
      (false, "Generated summary was too short or empty") ∧
    create_comprehensive_summary (.text "ok") = (true, "ok") :=
  ⟨summarizer_failure_taxonomy.1 "quota exceeded",
   summarizer_failure_taxonomy.2.2.1 "short" (by decide),
   summarizer_failure_taxonomy.2.2.2.2.2.2.2 "ok" (by decide)⟩

theorem scrapeLoop_success_length (extract : String → String) :
    ∀ (attempts : List FetchOutcome) (s : String),
      scrapeLoop extract attempts = (true, s) →
      100 ≤ s.length ∧ s.length ≤ 15003 := by
  intro attempts
  induction attempts with
  | nil =>
    intro s h
    simp [scrapeLoop] at h
  | cons a rest ih =>
    intro s h
    cases a with
    | timeout =>
      simp only [scrapeLoop] at h
      split at h
      · simp at h
      · exact ih s h
    | httpError msg => simp [scrapeLoop] at h
    | tooManyRedirects => simp [scrapeLoop] at h
    | requestError msg => simp [scrapeLoop] at h
    | otherError msg => simp [scrapeLoop] at h
    | ok ct body =>
      simp only [scrapeLoop] at h
      split at h
      · simp at h
      · split at h
        · simp at h
        · split at h
          · rename_i hlen100 hlen15000
            injection h with h1 h2
            subst h2
            have hpt : (pyTake (extract body) 15000).length = 15000 := by
              simp only [pyTake, String.length, List.length_take]
              simp only [String.length] at hlen15000
              omega
            rw [String.length_append, hpt]
            decide
          · rename_i hlen100 hlen15000
            injection h with h1 h2
            subst h2
            omega

/-- C9: whenever `scrape` returns success, the returned text has at least 100
and at most 15003 characters (the 15000-character cut plus the 3-character
`"..."` marker). -/
theorem scrape_success_length
    (is_valid_url : String → Bool) (extract : String → String)
    (url : String) (attempts : List FetchOutcome) (s : String)
    (h : scrape is_valid_url extract url attempts = (true, s)) :
    100 ≤ s.length ∧ s.length ≤ 15003 := by
  unfold scrape at h
  split at h
  · simp at h
  · split at h
    · simp at h
    · exact scrapeLoop_success_length extract attempts s h

/-- Witness for C9 at a concrete successful scrape of a 100-character text. -/
theorem scrape_success_length_witness :
    100 ≤ (String.mk (List.replicate 100 'a')).length ∧
    (String.mk (List.replicate 100 'a')).length ≤ 15003 :=
  scrape_success_length (fun _ => true) (fun b => b) "https://example.com"
    [FetchOutcome.ok "text/html" (String.mk (List.replicate 100 'a'))]
    (String.mk (List.replicate 100 'a')) (by decide)
